import Mathlib

/-!
Verification of the deer-flow search/crawl adapter layer.

We shallowly embed the provider normalizers and the crawl fallback
controller from the Python sources:

  - src/tools/tavily_search/tavily_search_api_wrapper.py
    (EnhancedTavilySearchAPIWrapper.clean_results_with_images)
  - src/tools/tavily_search/tavily_search_results_with_images.py
    (TavilySearchResultsWithImages._run)
  - src/tools/brave_search/enhanced_brave_search.py (EnhancedBraveSearch._run)
  - src/tools/searxng_search/enhanced_searxng_search.py
    (SearxNGSearchAPIWrapper.results, SearxNGSearchTool._run)
  - src/tools/duckduckgo_search/enhanced_duckduckgo_search.py
    (EnhancedDuckDuckGoSearchResults._run)
  - src/crawler/crawl4ai_client.py (Crawl4aiClient.crawl)

Parsed JSON values are modelled by the inductive `Json`; Python
exceptions by `PyErr`; fallible Python code returns `Except PyErr`.
The HTTP transport is modelled as an environment mapping the index of
each outbound request to its outcome, so that control flow and request
counts of the fallback controller can be stated exactly.
-/

/-- Parsed JSON values, as produced by response.json() / json.loads.
Python dicts are association lists in insertion order with unique keys;
lookup takes the first match, which agrees with dict semantics. -/
inductive Json where
  | null : Json
  | bool : Bool → Json
  | num : Int → Json
  | str : String → Json
  | arr : List Json → Json
  | obj : List (String × Json) → Json

/-- Python exceptions that the embedded code can raise.  The payloads
abstract the exception messages: `keyError` carries the missing key,
`valueError` and `runtimeError` carry the message the source builds. -/
inductive PyErr where
  | keyError : String → PyErr
  | typeError : PyErr
  | attributeError : PyErr
  | valueError : String → PyErr
  | runtimeError : String → PyErr
  deriving DecidableEq, Repr

namespace Json

/-- Key membership for a JSON object; false on non-objects. -/
def hasKey (j : Json) (k : String) : Bool :=
  match j with
  | .obj fs => fs.any (fun p => p.1 = k)
  | _ => false

/-- First-match lookup in a JSON object; none on non-objects. -/
def lookup (j : Json) (k : String) : Option Json :=
  match j with
  | .obj fs => (fs.find? (fun p => p.1 = k)).map (fun p => p.2)
  | _ => none

/-- Python d[k] on a value: KeyError when an object lacks the key,
TypeError when the value is not a dict (string/int/list indexing with a
string key raises TypeError in Python). -/
def getKey (j : Json) (k : String) : Except PyErr Json :=
  match j with
  | .obj fs =>
      match fs.find? (fun p => p.1 = k) with
      | some p => .ok p.2
      | none => .error (.keyError k)
  | _ => .error .typeError

/-- Python d.get(k) on a dict: none when absent.  The embedding only
applies this after a successful getKey on the same value, so the
non-dict case (AttributeError in Python) is unreachable and mapped to
none. -/
def getOpt (j : Json) (k : String) : Option Json :=
  match j with
  | .obj fs => (fs.find? (fun p => p.1 = k)).map (fun p => p.2)
  | _ => none

/-- Python d.get(k, default). -/
def getD (j : Json) (k : String) (d : Json) : Json :=
  match j.getOpt k with
  | some v => v
  | none => d

/-- Python truthiness of a JSON value. -/
def truthy (j : Json) : Bool :=
  match j with
  | .null => false
  | .bool b => b
  | .num n => n != 0
  | .str s => s ≠ ""
  | .arr xs => !xs.isEmpty
  | .obj fs => !fs.isEmpty

/-- Python iteration `for x in v`: a list yields its elements, a dict
yields its keys, a string yields its one-character substrings, and any
other value raises TypeError. -/
def iterElems (j : Json) : Except PyErr (List Json) :=
  match j with
  | .arr xs => .ok xs
  | .obj fs => .ok (fs.map (fun p => Json.str p.1))
  | .str s => .ok (s.data.map (fun c => Json.str (String.mk [c])))
  | _ => .error .typeError

/-- Python `k in v` for a string key: dict key membership, list element
membership, substring test on strings, TypeError otherwise.  The
substring case is only reached on string responses, which no claim
exercises, so it is abstracted to false. -/
def pyContains (j : Json) (k : String) : Except PyErr Bool :=
  match j with
  | .obj fs => .ok (fs.any (fun p => p.1 = k))
  | .arr xs => .ok (xs.any (fun x => match x with | .str s => s = k | _ => false))
  | .str _ => .ok false
  | _ => .error .typeError

/-- The keys of a JSON object, in insertion order; [] on non-objects. -/
def keys (j : Json) : List String :=
  match j with
  | .obj fs => fs.map (fun p => p.1)
  | _ => []

/-- Whether the value is a dict. -/
def isObj (j : Json) : Bool :=
  match j with
  | .obj _ => true
  | _ => false

/-- Whether the value is a list. -/
def isArr (j : Json) : Bool :=
  match j with
  | .arr _ => true
  | _ => false

end Json

mutual

/-- json.dumps: serialize a JSON value to text. -/
def Json.render : Json → String
  | .null => "null"
  | .bool true => "true"
  | .bool false => "false"
  | .num n => toString n
  | .str s => "\"" ++ s ++ "\""
  | .arr xs => "[" ++ Json.renderList xs ++ "]"
  | .obj fs => "\x7b" ++ Json.renderFields fs ++ "\x7d"

/-- Comma-separated rendering of array elements. -/
def Json.renderList : List Json → String
  | [] => ""
  | [x] => Json.render x
  | x :: y :: xs => Json.render x ++ ", " ++ Json.renderList (y :: xs)

/-- Comma-separated rendering of object fields. -/
def Json.renderFields : List (String × Json) → String
  | [] => ""
  | [p] => "\"" ++ p.1 ++ "\": " ++ Json.render p.2
  | p :: q :: fs => "\"" ++ p.1 ++ "\": " ++ Json.render p.2 ++ ", " ++ Json.renderFields (q :: fs)

end

/-- str(e) / repr(e) of an exception, abstracted: claims only compare
these strings for equality, never inspect Python formatting. -/
def PyErr.pyStr : PyErr → String
  | .keyError k => "KeyError: " ++ k
  | .typeError => "TypeError"
  | .attributeError => "AttributeError"
  | .valueError m => "ValueError: " ++ m
  | .runtimeError m => "RuntimeError: " ++ m

/-- Whether an exception is a ValueError, the class the first except
clause of SearxNGSearchTool._run catches. -/
def PyErr.isValueErr : PyErr → Bool
  | .valueError _ => true
  | _ => false

/-- A Python for-loop that builds a list, propagating the first raised
exception, as used by every normalizer loop below. -/
def exceptMapM (f : α → Except PyErr β) : List α → Except PyErr (List β)
  | [] => .ok []
  | a :: as => do
      let b ← f a
      let bs ← exceptMapM f as
      pure (b :: bs)

@[simp] theorem except_bind_ok (a : α) (f : α → Except PyErr β) :
    (Except.ok a >>= f) = f a := rfl

@[simp] theorem except_bind_error (e : PyErr) (f : α → Except PyErr β) :
    ((Except.error e : Except PyErr α) >>= f) = Except.error e := rfl

@[simp] theorem except_pure_eq (a : α) :
    (pure a : Except PyErr α) = Except.ok a := rfl

/-! ## Tavily: EnhancedTavilySearchAPIWrapper.clean_results_with_images -/

/-- One entry of the cleaned Tavily result list: a page dict
`{type: "page", title, url, content, score, [raw_content]}` or an image
dict `{type: "image", image_url, image_description}`. -/
inductive TavilyEntry where
  | page : Json → Json → Json → Json → Option Json → TavilyEntry
  | image : Json → Json → TavilyEntry

/-- The single page-result loop body of clean_results_with_images:
result["title"], result["url"], result["content"], result["score"] are
mandatory indexings (KeyError when absent), and
`if raw_content := result.get("raw_content")` keeps raw_content only
when present and truthy. -/
def cleanPageResult (r : Json) : Except PyErr TavilyEntry := do
  let title ← r.getKey "title"
  let url ← r.getKey "url"
  let content ← r.getKey "content"
  let score ← r.getKey "score"
  let rawContent :=
    match r.getOpt "raw_content" with
    | some v => if v.truthy then some v else none
    | none => none
  pure (.page title url content score rawContent)

/-- The single image loop body: image["url"] and image["description"]
are mandatory indexings. -/
def cleanImageResult (im : Json) : Except PyErr TavilyEntry := do
  let u ← im.getKey "url"
  let d ← im.getKey "description"
  pure (.image u d)

/-- EnhancedTavilySearchAPIWrapper.clean_results_with_images.  Reads
raw_results["results"], iterates it building page entries, then reads
raw_results.get("images", []) and, when truthy, appends image entries.
Note the include_images flag is not a parameter: the function never
consults it. -/
def clean_results_with_images (raw : Json) : Except PyErr (List TavilyEntry) := do
  let results ← raw.getKey "results"
  let rlist ← results.iterElems
  let pages ← exceptMapM cleanPageResult rlist
  let images := raw.getD "images" (Json.arr [])
  if images.truthy then
    let ilist ← images.iterElems
    let ientries ← exceptMapM cleanImageResult ilist
    pure (pages ++ ientries)
  else
    pure pages

/-- Number of image-kind entries in a cleaned Tavily result list. -/
def countImageEntries (es : List TavilyEntry) : Nat :=
  es.countP (fun e => match e with | .image _ _ => true | _ => false)

/-! ## Tavily: TavilySearchResultsWithImages._run -/

/-- The value _run returns: a pair of (cleaned results or the repr of
the API exception) and the raw response (empty dict on API failure). -/
inductive TavilyRunOutput where
  | pair : Sum String (List TavilyEntry) → Json → TavilyRunOutput

/-- TavilySearchResultsWithImages._run, as a function of the outcome of
self.api_wrapper.raw_results(...).  The include_images flag is merely
forwarded inside the request parameters; it does not influence the
normalization, so the outcome of the API call is the only input the
rest of the body depends on.  The try block covers only the API call:
an API exception e yields `return repr(e), {}`; an exception from
clean_results_with_images propagates out of _run. -/
def tavilyRun (includeImages : Bool) (api : Except PyErr Json) :
    Except PyErr TavilyRunOutput :=
  match api with
  | .error e => .ok (.pair (.inl e.pyStr) (Json.obj []))
  | .ok raw =>
      match clean_results_with_images raw with
      | .error e => .error e
      | .ok entries => .ok (.pair (.inr entries) raw)

/-! ## Brave: EnhancedBraveSearch._run result processing -/

/-- The per-record processing of EnhancedBraveSearch._run:
`{"title": result.get("title", ""), "link": result.get("url", ""),
"snippet": result.get("description", "")}`.  Calling .get on a
non-dict record raises AttributeError in Python. -/
def braveEntryObj (r : Json) : Json :=
  Json.obj
    [("title", r.getD "title" (Json.str "")),
     ("link", r.getD "url" (Json.str "")),
     ("snippet", r.getD "description" (Json.str ""))]

/-- One record of the Brave processing loop; .get on a non-dict record
raises AttributeError. -/
def braveEntry (r : Json) : Except PyErr Json :=
  match r with
  | .obj _ => .ok (braveEntryObj r)
  | _ => .error .attributeError

/-- The processing loop of EnhancedBraveSearch._run over the records
returned by the wrapper, in order. -/
def braveProcessResults (recs : List Json) : Except PyErr (List Json) :=
  exceptMapM braveEntry recs

/-! ## SearxNG: SearxNGSearchAPIWrapper.results result extraction -/

/-- The per-record processing in SearxNGSearchAPIWrapper.results:
`{"title": result.get("title", ""), "link": result.get("url", ""),
"snippet": result.get("content", "")}` on a dict record. -/
def searxngEntryObj (r : Json) : Json :=
  Json.obj
    [("title", r.getD "title" (Json.str "")),
     ("link", r.getD "url" (Json.str "")),
     ("snippet", r.getD "content" (Json.str ""))]

/-- One record of the SearxNG results loop; .get on a non-dict record
raises AttributeError. -/
def searxngEntry (r : Json) : Except PyErr Json :=
  match r with
  | .obj _ => .ok (searxngEntryObj r)
  | _ => .error .attributeError

/-- The extraction stage of SearxNGSearchAPIWrapper.results after the
JSON body `data` has been parsed: `if "results" in data:` iterate
data["results"] building entries, `else:` log a warning and return the
empty list.  The Bool records whether the warning branch was taken. -/
def searxngExtract (data : Json) : Except PyErr (List Json × Bool) := do
  let mem ← data.pyContains "results"
  if mem then
    let rs ← data.getKey "results"
    let elems ← rs.iterElems
    let entries ← exceptMapM searxngEntry elems
    pure (entries, false)
  else
    pure ([], true)

/-! ## SearxNG: SearxNGSearchTool._run -/

/-- json.dumps({"error": True, "message": msg}). -/
def searxngErrObj (msg : String) : Json :=
  Json.obj [("error", Json.bool true), ("message", Json.str msg)]

/-- The serializable_results selection in SearxNGSearchTool._run: a
list is passed through, a dict with a list under "results" contributes
that list, anything else becomes the empty list. -/
def searxngSerializable (raw : Json) : Json :=
  match raw with
  | .arr xs => .arr xs
  | .obj _ =>
      match raw.lookup "results" with
      | some (.arr xs) => .arr xs
      | _ => .arr []
  | _ => .arr []

/-- SearxNGSearchTool._run, as a function of the outcome of
_extract_query_and_kwargs (a query string and API kwargs, or an
exception) and of search_wrapper.results on the extracted arguments.
The whole body is one try: a ValueError from either stage is answered
with the "Argument extraction failed" JSON error object, any other
exception with the "An unexpected error occurred" object, and success
with json.dumps of the selected list. -/
def searxngToolRun (extract : Except PyErr (String × List (String × Json)))
    (api : String → List (String × Json) → Except PyErr Json) : String :=
  let body : Except PyErr String := do
    let qk ← extract
    let raw ← api qk.1 qk.2
    pure (Json.render (searxngSerializable raw))
  match body with
  | .ok s => s
  | .error (.valueError m) =>
      Json.render (searxngErrObj ("Argument extraction failed: " ++ m))
  | .error e =>
      Json.render (searxngErrObj ("An unexpected error occurred: " ++ e.pyStr))

/-! ## DuckDuckGo: EnhancedDuckDuckGoSearchResults._run -/

/-- The keys_to_include filter applied to one record:
`{k: v for k, v in d.items() if not keys_to_include or k in keys_to_include}`.
A falsy keys_to_include (None or the empty list) keeps every key.
Calling .items() on a non-dict record raises AttributeError. -/
def ddgFilter (keysToInclude : Option (List String)) (d : Json) : Except PyErr Json :=
  match d with
  | .obj fs =>
      .ok (.obj (fs.filter (fun p =>
        match keysToInclude with
        | none => true
        | some [] => true
        | some ks => ks.contains p.1)))
  | _ => .error .attributeError

/-- Python str(v) of a JSON value as used in the f-string "k: v".
Claims never inspect this text, so the rendering is abstracted to the
JSON rendering except for bare strings. -/
def pyToStr (j : Json) : String :=
  match j with
  | .str s => s
  | _ => j.render

/-- The "string" output format: per record join "k: v" pairs with ", ",
then join records with the results separator. -/
def ddgStringFormat (sep : String) (results : List Json) : String :=
  String.intercalate sep
    (results.map (fun d =>
      String.intercalate ", " ((Json.keys d).map (fun k =>
        k ++ ": " ++ pyToStr (d.getD k Json.null)))))

/-- The processed output of the DuckDuckGo tool: the filtered record
list, or a formatted string. -/
inductive DdgProcessed where
  | asList : List Json → DdgProcessed
  | asStr : String → DdgProcessed

/-- EnhancedDuckDuckGoSearchResults._run, as a function of the tool
configuration and the outcome of self.api_wrapper.results (the one
network call, issued first in the body).  The second component counts
the network calls made: the API call precedes every output-format
check, so it is 1 on every path, including the unrecognized-format
ValueError path.  Python dict iteration order over a dict built by a
comprehension preserves insertion order, matching Json.keys. -/
def ddgRun (outputFormat : String) (sep : String)
    (keysToInclude : Option (List String))
    (api : Except PyErr (List Json)) :
    Except PyErr (DdgProcessed × List Json) × Nat :=
  match api with
  | .error e => (.error e, 1)
  | .ok raw =>
      match exceptMapM (ddgFilter keysToInclude) raw with
      | .error e => (.error e, 1)
      | .ok results =>
          if outputFormat = "list" then
            (.ok (.asList results, raw), 1)
          else if outputFormat = "json" then
            (.ok (.asStr (Json.render (.arr results)), raw), 1)
          else if outputFormat = "string" then
            (.ok (.asStr (ddgStringFormat sep results), raw), 1)
          else
            (.error (.valueError outputFormat), 1)

/-! ## Crawl4aiClient.crawl -/

/-- The body of an HTTP response: a body that parses as JSON, or raw
text on which response.json() raises JSONDecodeError. -/
inductive RespBody where
  | jsonBody : Json → RespBody
  | textBody : String → RespBody

/-- response.text: the serialized body. -/
def RespBody.text : RespBody → String
  | .jsonBody j => j.render
  | .textBody s => s

/-- The outcome of one requests.post call: a response with a status
code and body, or a raised requests.RequestException (connection
error, timeout, DNS failure) carrying str(e). -/
inductive HttpOutcome where
  | resp : Nat → RespBody → HttpOutcome
  | transportError : String → HttpOutcome

/-- Whether an outcome is a response with status 422. -/
def HttpOutcome.is422 : HttpOutcome → Bool
  | .resp c _ => c = 422
  | _ => false

/-- Whether an outcome is a raised transport exception. -/
def HttpOutcome.isTransportError : HttpOutcome → Bool
  | .transportError _ => true
  | _ => false

/-- The JSON-response normalization of Crawl4aiClient.crawl (the block
after response.raise_for_status()): dispatch on the parsed shape,
preferring a top-level "content" value, then a per-URL "results" dict,
then the first array element, and otherwise json.dumps of the whole
value.  Python returns json_response["content"] unconverted, so the
return value is a Json (the str annotation in the source is not
enforced). -/
def crawlNormalizeJson (url : String) (j : Json) : Json :=
  match j with
  | .obj fs =>
      if (Json.obj fs).hasKey "content" then
        (Json.obj fs).getD "content" Json.null
      else
        match (Json.obj fs).lookup "results" with
        | some (.obj rfs) =>
            let results := Json.obj rfs
            if results.hasKey url then
              let r := results.getD url Json.null
              if r.isObj && r.hasKey "content" then r.getD "content" Json.null
              else Json.str r.render
            else if results.truthy && rfs.length > 0 then
              match rfs with
              | [] => Json.str (Json.obj fs).render
              | p :: _ =>
                  let firstResult := p.2
                  if firstResult.isObj && firstResult.hasKey "content" then
                    firstResult.getD "content" Json.null
                  else Json.str firstResult.render
            else Json.str (Json.obj fs).render
        | _ => Json.str (Json.obj fs).render
  | .arr (x :: _) =>
      if x.isObj && x.hasKey "content" then x.getD "content" Json.null
      else Json.str x.render
  | other => Json.str other.render

/-- Normalization of a full response body: a JSONDecodeError falls back
to response.text, so this stage never raises. -/
def crawlNormalizeBody (url : String) (body : RespBody) : Json :=
  match body with
  | .jsonBody j => crawlNormalizeJson url j
  | .textBody s => Json.str s

/-- The except-RequestException handler of Crawl4aiClient.crawl: one
more requests.post with the minimal payload {"urls": [url]}; on a 200
it normalizes and returns (the handler repeats the normalization
logic), on any other status or a raised exception it raises
RuntimeError(error_msg) where error_msg names only the original
failure. -/
def crawlTransportFallback (url : String) (errMsg : String)
    (outcome : HttpOutcome) : Except PyErr Json :=
  match outcome with
  | .resp c body =>
      if c = 200 then .ok (crawlNormalizeBody url body)
      else .error (.runtimeError errMsg)
  | .transportError _ => .error (.runtimeError errMsg)

/-- str(e) of the requests.HTTPError raised by raise_for_status on an
error status, abstracted to carry the status code. -/
def httpErrorStr (code : Nat) : String :=
  "HTTPError " ++ toString code

/-- The prefix of the error_msg built in the except handler. -/
def crawlErrMsgOf (cause : String) : String :=
  "Error making request to crawl4ai: " ++ cause

/-- Crawl4aiClient.crawl, as a function of the target url and of the
environment `env` assigning an outcome to the i-th outbound
requests.post of the call (request 0 is the primary).  Returns the
result (the crawled content, or the raised exception) together with
the number of outbound requests issued.

Control flow of the source: the primary post and the 422-fallback post
both sit inside one try block whose except-RequestException handler
issues a further post.  Hence: a primary transport error goes straight
to the handler (2 requests); a primary 422 issues the 422-fallback
(request 1), and if that post itself raises a transport exception the
handler issues request 2 (3 requests total); a primary 422 whose
fallback completes with a non-200 status raises
RuntimeError("422 Unprocessable Entity error from crawl4ai: " +
primary response text) without reaching the handler; a primary error
status other than 422 raises HTTPError inside the try, so the handler
issues request 1. -/
def crawlSteps (url : String) (o0 o1 o2 : HttpOutcome) : Except PyErr Json × Nat :=
  match o0 with
  | .transportError m =>
      (crawlTransportFallback url (crawlErrMsgOf m) o1, 2)
  | .resp code body =>
      if code = 422 then
        match o1 with
        | .transportError m2 =>
            (crawlTransportFallback url (crawlErrMsgOf m2) o2, 3)
        | .resp c2 fbBody =>
            if c2 = 200 then (.ok (crawlNormalizeBody url fbBody), 2)
            else
              (.error (.runtimeError
                ("422 Unprocessable Entity error from crawl4ai: " ++ body.text)), 2)
      else if 400 ≤ code then
        (crawlTransportFallback url (crawlErrMsgOf (httpErrorStr code)) o1, 2)
      else
        (.ok (crawlNormalizeBody url body), 1)

/-- The full crawl call: at most the first three entries of the
environment can be consulted. -/
def crawl (url : String) (env : Nat → HttpOutcome) : Except PyErr Json × Nat :=
  crawlSteps url (env 0) (env 1) (env 2)

/-! ## String containment, for stating what an error message carries -/

/-- Whether pat occurs as a contiguous run inside l. -/
def charsHaveInfix (pat : List Char) : List Char → Bool
  | [] => pat.isEmpty
  | c :: rest => pat.isPrefixOf (c :: rest) || charsHaveInfix pat rest

/-- Whether pat occurs as a substring of s. -/
def strHasSub (s pat : String) : Bool :=
  charsHaveInfix pat.data s.data

/-! ## Helper lemmas about the JSON model -/

theorem find_none_of_hasKey_false {fs : List (String × Json)} {k : String}
    (h : (Json.obj fs).hasKey k = false) :
    fs.find? (fun p => decide (p.1 = k)) = none := by
  have h' : fs.any (fun p => decide (p.1 = k)) = false := h
  rw [List.find?_eq_none]
  exact List.any_eq_false.mp h'

theorem obj_lookup_eq_none {fs : List (String × Json)} {k : String}
    (h : (Json.obj fs).hasKey k = false) : (Json.obj fs).lookup k = none := by
  simp only [Json.lookup, find_none_of_hasKey_false h, Option.map_none']

theorem getD_of_hasKey_false {fs : List (String × Json)} {k : String} (d : Json)
    (h : (Json.obj fs).hasKey k = false) : (Json.obj fs).getD k d = d := by
  simp only [Json.getD, Json.getOpt, find_none_of_hasKey_false h, Option.map_none']

theorem getKey_of_hasKey_false {fs : List (String × Json)} {k : String}
    (h : (Json.obj fs).hasKey k = false) :
    (Json.obj fs).getKey k = .error (.keyError k) := by
  simp only [Json.getKey, find_none_of_hasKey_false h]

theorem obj_lookup_cases {fs : List (String × Json)} {k : String} {v : Json}
    (h : (Json.obj fs).lookup k = some v) :
    ∃ p, fs.find? (fun p => decide (p.1 = k)) = some p ∧ p.2 = v := by
  have h' : (fs.find? (fun p => decide (p.1 = k))).map (fun p => p.2) = some v := h
  cases hf : fs.find? (fun p => decide (p.1 = k)) with
  | none => rw [hf] at h'; simp at h'
  | some p =>
      rw [hf] at h'
      simp only [Option.map_some', Option.some.injEq] at h'
      exact ⟨p, rfl, h'⟩

theorem lookup_hasKey {fs : List (String × Json)} {k : String} {v : Json}
    (h : (Json.obj fs).lookup k = some v) : (Json.obj fs).hasKey k = true := by
  obtain ⟨p, hf, hv⟩ := obj_lookup_cases h
  have hmem := List.mem_of_find?_eq_some hf
  have hpred := List.find?_some hf
  show fs.any (fun p => decide (p.1 = k)) = true
  exact List.any_eq_true.mpr ⟨p, hmem, hpred⟩

theorem getKey_eq_of_lookup {fs : List (String × Json)} {k : String} {v : Json}
    (h : (Json.obj fs).lookup k = some v) : (Json.obj fs).getKey k = .ok v := by
  obtain ⟨p, hf, hv⟩ := obj_lookup_cases h
  simp only [Json.getKey, hf, hv]

theorem getD_eq_of_lookup {fs : List (String × Json)} {k : String} {v : Json} (d : Json)
    (h : (Json.obj fs).lookup k = some v) : (Json.obj fs).getD k d = v := by
  obtain ⟨p, hf, hv⟩ := obj_lookup_cases h
  simp only [Json.getD, Json.getOpt, hf, Option.map_some', hv]

/-! ## Helper lemmas about exceptMapM -/

theorem exceptMapM_ok_of_forall {f : α → Except PyErr β} {g : α → β}
    {l : List α} (h : ∀ a ∈ l, f a = .ok (g a)) :
    exceptMapM f l = .ok (l.map g) := by
  induction l with
  | nil => rfl
  | cons a as ih =>
      have ha := h a (List.mem_cons_self a as)
      have ih' := ih (fun x hx => h x (List.mem_cons_of_mem a hx))
      simp [exceptMapM, ha, ih']

theorem exceptMapM_length {f : α → Except PyErr β} {l : List α} {bs : List β}
    (h : exceptMapM f l = .ok bs) : bs.length = l.length := by
  induction l generalizing bs with
  | nil =>
      simp [exceptMapM] at h
      simp [← h]
  | cons a as ih =>
      simp only [exceptMapM] at h
      cases hfa : f a with
      | error e => rw [hfa] at h; simp at h
      | ok b =>
          rw [hfa] at h
          simp only [except_bind_ok] at h
          cases hrest : exceptMapM f as with
          | error e => rw [hrest] at h; simp at h
          | ok bs' =>
              rw [hrest] at h
              simp only [except_bind_ok, except_pure_eq, Except.ok.injEq] at h
              subst h
              simp [ih hrest]

theorem exceptMapM_mem {f : α → Except PyErr β} {l : List α} {bs : List β}
    (h : exceptMapM f l = .ok bs) :
    ∀ b ∈ bs, ∃ a ∈ l, f a = .ok b := by
  induction l generalizing bs with
  | nil =>
      simp [exceptMapM] at h
      subst h
      simp
  | cons a as ih =>
      simp only [exceptMapM] at h
      cases hfa : f a with
      | error e => rw [hfa] at h; simp at h
      | ok b =>
          rw [hfa] at h
          simp only [except_bind_ok] at h
          cases hrest : exceptMapM f as with
          | error e => rw [hrest] at h; simp at h
          | ok bs' =>
              rw [hrest] at h
              simp only [except_bind_ok, except_pure_eq, Except.ok.injEq] at h
              subst h
              intro x hx
              rcases List.mem_cons.mp hx with hx | hx
              · exact ⟨a, List.mem_cons_self a as, hx ▸ hfa⟩
              · obtain ⟨a', ha', hfa'⟩ := ih hrest x hx
                exact ⟨a', List.mem_cons_of_mem a ha', hfa'⟩

/-! ## Further helper lemmas -/

/-- Whether a cleaned Tavily entry is an image entry. -/
def TavilyEntry.isImage : TavilyEntry → Bool
  | .image _ _ => true
  | _ => false

theorem countImageEntries_eq_countP (es : List TavilyEntry) :
    countImageEntries es = es.countP TavilyEntry.isImage := by
  unfold countImageEntries
  congr 1

theorem cleanPageResult_not_image {r : Json} {e : TavilyEntry}
    (h : cleanPageResult r = .ok e) : e.isImage = false := by
  unfold cleanPageResult at h
  cases h1 : r.getKey "title" with
  | error _ => rw [h1] at h; simp at h
  | ok t =>
      rw [h1] at h; simp only [except_bind_ok] at h
      cases h2 : r.getKey "url" with
      | error _ => rw [h2] at h; simp at h
      | ok u =>
          rw [h2] at h; simp only [except_bind_ok] at h
          cases h3 : r.getKey "content" with
          | error _ => rw [h3] at h; simp at h
          | ok c =>
              rw [h3] at h; simp only [except_bind_ok] at h
              cases h4 : r.getKey "score" with
              | error _ => rw [h4] at h; simp at h
              | ok s =>
                  rw [h4] at h
                  simp only [except_bind_ok, except_pure_eq, Except.ok.injEq] at h
                  rw [← h]
                  rfl

theorem cleanImageResult_is_image {r : Json} {e : TavilyEntry}
    (h : cleanImageResult r = .ok e) : e.isImage = true := by
  unfold cleanImageResult at h
  cases h1 : r.getKey "url" with
  | error _ => rw [h1] at h; simp at h
  | ok u =>
      rw [h1] at h; simp only [except_bind_ok] at h
      cases h2 : r.getKey "description" with
      | error _ => rw [h2] at h; simp at h
      | ok d =>
          rw [h2] at h
          simp only [except_bind_ok, except_pure_eq, Except.ok.injEq] at h
          rw [← h]
          rfl

theorem countImageEntries_pages {rs : List Json} {pages : List TavilyEntry}
    (h : exceptMapM cleanPageResult rs = .ok pages) :
    countImageEntries pages = 0 := by
  rw [countImageEntries_eq_countP, List.countP_eq_zero]
  intro e he
  obtain ⟨r, _, hr⟩ := exceptMapM_mem h e he
  simp [cleanPageResult_not_image hr]

theorem countImageEntries_images {rs : List Json} {imgs : List TavilyEntry}
    (h : exceptMapM cleanImageResult rs = .ok imgs) :
    countImageEntries imgs = rs.length := by
  rw [countImageEntries_eq_countP]
  rw [← exceptMapM_length h]
  rw [List.countP_eq_length]
  intro e he
  obtain ⟨r, _, hr⟩ := exceptMapM_mem h e he
  exact cleanImageResult_is_image hr

theorem iterElems_ne_nil_of_truthy {j : Json} {l : List Json}
    (ht : j.truthy = true) (h : j.iterElems = .ok l) : l ≠ [] := by
  intro hnil
  subst hnil
  cases j with
  | null => simp [Json.truthy] at ht
  | bool b =>
      cases b
      · simp [Json.truthy] at ht
      · simp [Json.iterElems] at h
  | num n => simp [Json.iterElems] at h
  | str s =>
      simp only [Json.iterElems, Except.ok.injEq] at h
      have hd : s.data = [] := by simpa using h
      have hs : s = "" := String.ext (by simpa using hd)
      rw [hs] at ht
      simp [Json.truthy] at ht
  | arr xs =>
      simp only [Json.iterElems, Except.ok.injEq] at h
      subst h
      simp [Json.truthy] at ht
  | obj fs =>
      simp only [Json.iterElems, Except.ok.injEq] at h
      have : fs = [] := by simpa using h
      subst this
      simp [Json.truthy] at ht

theorem searxngSerializable_isArr (raw : Json) :
    (searxngSerializable raw).isArr = true := by
  unfold searxngSerializable
  cases raw <;> try rfl
  case obj fs =>
    cases hl : (Json.obj fs).lookup "results" with
    | none => rfl
    | some v => cases v <;> rfl

/-! ## Claim C9 -/

/-- C9: for every query, if the raw Tavily API call raises any
exception, TavilySearchResultsWithImages._run (and _arun, whose body is
identical) catches it and returns the pair (repr of the exception,
empty dict) instead of raising. -/
theorem C9_tavily_run_catches_api_errors :
    ∀ (includeImages : Bool) (e : PyErr),
      tavilyRun includeImages (.error e) =
        .ok (.pair (.inl e.pyStr) (Json.obj [])) := by
  intro b e
  rfl

/-! ## Claim C7 -/

/-- C7: the SearxNG normalizer maps a parsed JSON object without a
"results" key to the empty list while taking the warning branch, and an
object whose "results" value is the empty array to the empty list
without the warning and without error. -/
theorem C7_searxng_missing_and_empty_results
    (fs gs : List (String × Json))
    (h1 : (Json.obj fs).hasKey "results" = false)
    (h2 : (Json.obj gs).lookup "results" = some (Json.arr [])) :
    searxngExtract (Json.obj fs) = .ok ([], true) ∧
    searxngExtract (Json.obj gs) = .ok ([], false) := by
  constructor
  · unfold searxngExtract
    have hc : (Json.obj fs).pyContains "results" = .ok false := by
      have h' : fs.any (fun p => decide (p.1 = "results")) = false := h1
      simp [Json.pyContains, h']
    rw [hc]
    simp
  · unfold searxngExtract
    have hc : (Json.obj gs).pyContains "results" = .ok true := by
      have h' : gs.any (fun p => decide (p.1 = "results")) = true := lookup_hasKey h2
      simp [Json.pyContains, h']
    rw [hc]
    simp only [except_bind_ok, if_true]
    rw [getKey_eq_of_lookup h2]
    simp [Json.iterElems, exceptMapM]

/-- C7 witness: concrete instances of both response shapes. -/
theorem C7_searxng_missing_and_empty_results_witness :
    searxngExtract (Json.obj []) = .ok ([], true) ∧
    searxngExtract (Json.obj [("results", Json.arr [])]) = .ok ([], false) :=
  C7_searxng_missing_and_empty_results [] [("results", Json.arr [])] rfl rfl

/-! ## Claim C4 -/

theorem crawlSteps_count (url : String) (o0 o1 o2 : HttpOutcome) :
    (crawlSteps url o0 o1 o2).2 ≤ 3 ∧
    ((crawlSteps url o0 o1 o2).2 = 3 ↔
      o0.is422 = true ∧ o1.isTransportError = true) := by
  cases o0 with
  | transportError m =>
      refine ⟨by norm_num [crawlSteps], ?_⟩
      simp [crawlSteps, HttpOutcome.is422]
  | resp code body =>
      by_cases hc : code = 422
      · subst hc
        cases o1 with
        | transportError m2 =>
            refine ⟨by norm_num [crawlSteps], ?_⟩
            simp [crawlSteps, HttpOutcome.is422, HttpOutcome.isTransportError]
        | resp c2 fb =>
            by_cases h200 : c2 = 200
            · subst h200
              refine ⟨by norm_num [crawlSteps], ?_⟩
              simp [crawlSteps, HttpOutcome.isTransportError]
            · refine ⟨by norm_num [crawlSteps, h200], ?_⟩
              simp [crawlSteps, h200, HttpOutcome.isTransportError]
      · by_cases h4 : 400 ≤ code
        · refine ⟨by norm_num [crawlSteps, hc, h4], ?_⟩
          simp [crawlSteps, hc, h4, HttpOutcome.is422]
        · refine ⟨by norm_num [crawlSteps, hc, h4], ?_⟩
          simp [crawlSteps, hc, h4, HttpOutcome.is422]

/-- C4 as frozen: every crawl call issues at most two outbound
requests. -/
def claimC4Statement : Prop :=
  ∀ (url : String) (env : Nat → HttpOutcome), (crawl url env).2 ≤ 2

/-- C4 counterexample: a primary 422 whose 422-fallback request raises
a transport error reaches the except handler, which issues a third
request. -/
theorem C4_counterexample : ¬ claimC4Statement := by
  intro h
  have h3 := h "u"
    (fun i => if i = 0 then HttpOutcome.resp 422 (RespBody.textBody "x")
              else HttpOutcome.transportError "A")
  exact absurd h3 (by decide)

/-- C4 amended: every crawl call issues at most three outbound
requests, and exactly three occur precisely when the primary request
returns HTTP 422 and the 422-fallback request raises a transport
error; in every other failure combination at most two requests are
issued. -/
theorem C4_amended (url : String) (env : Nat → HttpOutcome) :
    (crawl url env).2 ≤ 3 ∧
    ((crawl url env).2 = 3 ↔
      (env 0).is422 = true ∧ (env 1).isTransportError = true) :=
  crawlSteps_count url (env 0) (env 1) (env 2)

/-- C4 witness: a concrete environment with a transport-failing
primary, evaluating the request count. -/
theorem C4_amended_witness :
    (crawl "u" (fun _ => HttpOutcome.transportError "A")).2 ≤ 3 ∧
    ((crawl "u" (fun _ => HttpOutcome.transportError "A")).2 = 3 ↔
      (HttpOutcome.transportError "A").is422 = true ∧
      (HttpOutcome.transportError "A").isTransportError = true) :=
  C4_amended "u" (fun _ => HttpOutcome.transportError "A")

/-! ## Claim C3 -/

/-- C3 as frozen: when the primary crawl request fails and the fallback
also fails, the raised terminal error carries both the original and the
fallback failure causes. -/
def claimC3Statement : Prop :=
  ∀ (url m1 m2 : String),
    ∃ msg,
      (crawl url (fun i => if i = 0 then HttpOutcome.transportError m1
          else HttpOutcome.transportError m2)).1
        = Except.error (PyErr.runtimeError msg) ∧
      strHasSub msg m1 = true ∧ strHasSub msg m2 = true

/-- C3 counterexample: with primary cause "A" and fallback cause "B",
the raised RuntimeError message embeds only "A". -/
theorem C3_counterexample : ¬ claimC3Statement := by
  intro h
  obtain ⟨msg, heq, h1, h2⟩ := h "u" "A" "B"
  have heq' :
      (Except.error (PyErr.runtimeError
          ("Error making request to crawl4ai: " ++ "A")) : Except PyErr Json)
        = Except.error (PyErr.runtimeError msg) := heq
  injection heq' with h3
  injection h3 with h4
  rw [← h4] at h2
  exact absurd h2 (by decide)

/-- C3 amended: when both the primary and the retry path fail, crawl
raises RuntimeError to the caller — the failure is never silently
swallowed — but the error carries only one cause: for a transport
failure it embeds that transport failure's message (the final fallback
failure is only logged), and for a primary 422 whose fallback request
completes with a non-200 status it embeds the primary 422 response
text (the fallback status is only logged). -/
theorem C3_amended (url m1 m2 : String) (body fb : RespBody) (c2 : Nat)
    (hc2 : ¬ c2 = 200) :
    (crawl url (fun i => if i = 0 then HttpOutcome.transportError m1
        else HttpOutcome.transportError m2)).1
      = Except.error (PyErr.runtimeError (crawlErrMsgOf m1)) ∧
    (crawl url (fun i => if i = 0 then HttpOutcome.resp 422 body
        else HttpOutcome.resp c2 fb)).1
      = Except.error (PyErr.runtimeError
          ("422 Unprocessable Entity error from crawl4ai: " ++ body.text)) := by
  constructor
  · rfl
  · show (crawlSteps url (HttpOutcome.resp 422 body)
        (HttpOutcome.resp c2 fb) (HttpOutcome.resp c2 fb)).1 = _
    unfold crawlSteps
    simp [hc2]

/-- C3 witness: both failure scenarios at concrete inputs. -/
theorem C3_amended_witness :
    (crawl "u" (fun i => if i = 0 then HttpOutcome.transportError "A"
        else HttpOutcome.transportError "B")).1
      = Except.error (PyErr.runtimeError (crawlErrMsgOf "A")) ∧
    (crawl "u" (fun i => if i = 0 then HttpOutcome.resp 422 (RespBody.textBody "t")
        else HttpOutcome.resp 500 (RespBody.textBody "f"))).1
      = Except.error (PyErr.runtimeError
          ("422 Unprocessable Entity error from crawl4ai: "
            ++ (RespBody.textBody "t").text)) :=
  C3_amended "u" "A" "B" (RespBody.textBody "t") (RespBody.textBody "f") 500
    (by decide)

/-! ## Claim C6 -/

/-- The top-level response shapes the claim calls unrecognized: a JSON
object carrying neither a "content" nor a "results" key, an empty
array, or a scalar. -/
def unrecognizedShape (j : Json) : Bool :=
  match j with
  | .obj fs => !((Json.obj fs).hasKey "content" || (Json.obj fs).hasKey "results")
  | .arr xs => xs.isEmpty
  | _ => true

/-- C6: on an unrecognized top-level shape the crawl normalizer returns
the whole response as one opaque text value — json.dumps of the parsed
value for valid JSON, response.text for a body that is not JSON — and
the call completes without raising. -/
theorem C6_crawl_unrecognized_shape_opaque (url : String) (j : Json) (s : String)
    (h : unrecognizedShape j = true) :
    crawlNormalizeJson url j = Json.str j.render ∧
    crawlNormalizeBody url (RespBody.textBody s) = Json.str s ∧
    crawl url (fun _ => HttpOutcome.resp 200 (RespBody.jsonBody j)) =
      (Except.ok (Json.str j.render), 1) := by
  have hmain : crawlNormalizeJson url j = Json.str j.render := by
    cases j with
    | obj fs =>
        simp only [unrecognizedShape, Bool.not_eq_true', Bool.or_eq_false_iff] at h
        obtain ⟨hc, hr⟩ := h
        simp only [crawlNormalizeJson]
        rw [hc, obj_lookup_eq_none hr]
        simp
    | arr xs =>
        simp only [unrecognizedShape, List.isEmpty_iff] at h
        subst h
        rfl
    | null => rfl
    | bool b => rfl
    | num n => rfl
    | str t => rfl
  have hrun : crawl url (fun _ => HttpOutcome.resp 200 (RespBody.jsonBody j)) =
      (Except.ok (crawlNormalizeJson url j), 1) := rfl
  exact ⟨hmain, rfl, by rw [hrun, hmain]⟩

/-- C6 witness: a scalar JSON body and a non-JSON body. -/
theorem C6_crawl_unrecognized_shape_opaque_witness :
    crawlNormalizeJson "u" Json.null = Json.str (Json.render Json.null) ∧
    crawlNormalizeBody "u" (RespBody.textBody "plain") = Json.str "plain" ∧
    crawl "u" (fun _ => HttpOutcome.resp 200 (RespBody.jsonBody Json.null)) =
      (Except.ok (Json.str (Json.render Json.null)), 1) :=
  C6_crawl_unrecognized_shape_opaque "u" Json.null "plain" rfl

/-! ## Claim C5 -/

/-- C5 as frozen: an unrecognized output-format selector makes the
DuckDuckGo tool raise before any network call, so zero network calls
are observed alongside the ValueError. -/
def claimC5Statement : Prop :=
  ∀ (fmt sep : String) (kti : Option (List String))
    (api : Except PyErr (List Json)),
    fmt ≠ "string" → fmt ≠ "json" → fmt ≠ "list" →
    (ddgRun fmt sep kti api).1 = Except.error (PyErr.valueError fmt) ∧
    (ddgRun fmt sep kti api).2 = 0

/-- C5 counterexample: with an unrecognized format and a successful API
call, the tool still performs its one network call before raising. -/
theorem C5_counterexample : ¬ claimC5Statement := by
  intro h
  have h1 := (h "xml" ", " none (.ok []) (by decide) (by decide) (by decide)).2
  exact absurd h1 (by decide)

/-- C5 amended: an unrecognized output-format selector raises
ValueError, but only during result formatting, after the single
network call has already been issued: when the API call and the
keys_to_include filtering succeed, the run ends in the ValueError with
exactly one network call made. -/
theorem C5_amended (fmt sep : String) (kti : Option (List String))
    (raw results : List Json)
    (h1 : fmt ≠ "string") (h2 : fmt ≠ "json") (h3 : fmt ≠ "list")
    (hmap : exceptMapM (ddgFilter kti) raw = .ok results) :
    ddgRun fmt sep kti (.ok raw) = (.error (.valueError fmt), 1) := by
  simp only [ddgRun, hmap]
  rw [if_neg h3, if_neg h2, if_neg h1]

/-- C5 witness: the "xml" selector with an empty successful response. -/
theorem C5_amended_witness :
    ddgRun "xml" ", " none (.ok []) =
      (.error (.valueError "xml"), 1) :=
  C5_amended "xml" ", " none [] [] (by decide) (by decide) (by decide) rfl

/-! ## Claim C1 -/

/-- C1 as frozen: with include_images false, the Tavily pipeline emits
zero image entries whatever the raw response contains. -/
def claimC1Statement : Prop :=
  ∀ (raw : Json) (entries : List TavilyEntry),
    tavilyRun false (.ok raw) = .ok (.pair (.inr entries) raw) →
    countImageEntries entries = 0

/-- C1 counterexample: the cleaner never consults the include_images
flag, so a raw response that carries a non-empty "images" list yields
an image entry even with include_images false. -/
theorem C1_counterexample : ¬ claimC1Statement := by
  intro h
  have h1 := h
    (Json.obj [("results", Json.arr []),
      ("images", Json.arr [Json.obj [("url", Json.str "u"),
        ("description", Json.str "d")]])])
    [TavilyEntry.image (Json.str "u") (Json.str "d")]
    rfl
  exact absurd h1 (by decide)

/-- C1 amended: the include_images flag is only forwarded inside the
outgoing request and never consulted during normalization; the cleaned
output contains zero image entries exactly when the raw response's
"images" value is absent or falsy (so a response that carries a
non-empty "images" list produces image entries regardless of the
flag). -/
theorem C1_amended (raw : Json) (entries : List TavilyEntry)
    (h : clean_results_with_images raw = .ok entries) :
    countImageEntries entries = 0 ↔
      (raw.getD "images" (Json.arr [])).truthy = false := by
  simp only [clean_results_with_images] at h
  cases h1 : raw.getKey "results" with
  | error e => rw [h1] at h; simp at h
  | ok results =>
      rw [h1] at h; simp only [except_bind_ok] at h
      cases h2 : results.iterElems with
      | error e => rw [h2] at h; simp at h
      | ok rlist =>
          rw [h2] at h; simp only [except_bind_ok] at h
          cases h3 : exceptMapM cleanPageResult rlist with
          | error e => rw [h3] at h; simp at h
          | ok pages =>
              rw [h3] at h; simp only [except_bind_ok] at h
              by_cases ht : (raw.getD "images" (Json.arr [])).truthy = true
              · rw [if_pos ht] at h
                cases h4 : (raw.getD "images" (Json.arr [])).iterElems with
                | error e => rw [h4] at h; simp at h
                | ok ilist =>
                    rw [h4] at h; simp only [except_bind_ok] at h
                    cases h5 : exceptMapM cleanImageResult ilist with
                    | error e => rw [h5] at h; simp at h
                    | ok imgs =>
                        rw [h5] at h
                        simp only [except_bind_ok, except_pure_eq,
                          Except.ok.injEq] at h
                        subst h
                        constructor
                        · intro hcount
                          exfalso
                          have hlen := countImageEntries_images h5
                          have hnn := iterElems_ne_nil_of_truthy ht h4
                          have hsplit : countImageEntries (pages ++ imgs) =
                              countImageEntries pages + countImageEntries imgs := by
                            simp [countImageEntries_eq_countP, List.countP_append]
                          rw [hsplit, countImageEntries_pages h3, hlen] at hcount
                          simp at hcount
                          exact hnn hcount
                        · intro hf
                          rw [hf] at ht
                          simp at ht
              · rw [if_neg ht] at h
                simp only [except_pure_eq, Except.ok.injEq] at h
                subst h
                constructor
                · intro _
                  exact Bool.eq_false_iff.mpr ht
                · intro _
                  exact countImageEntries_pages h3

/-- C1 witness: a response without an images key. -/
theorem C1_amended_witness :
    countImageEntries [] = 0 ↔
      ((Json.obj [("results", Json.arr [])]).getD "images"
        (Json.arr [])).truthy = false :=
  C1_amended (Json.obj [("results", Json.arr [])]) [] rfl

/-! ## Claim C2 -/

/-- C2 as frozen: the normalizers never raise on a record that is a
dict merely missing optional fields; in particular the Tavily cleaner
succeeds on every results list made of dicts. -/
def claimC2Statement : Prop :=
  ∀ recs : List Json, (∀ r ∈ recs, r.isObj = true) →
    ∃ entries, clean_results_with_images
      (Json.obj [("results", Json.arr recs)]) = .ok entries

/-- C2 counterexample: a Tavily page record without a "title" key makes
clean_results_with_images raise KeyError. -/
theorem C2_counterexample : ¬ claimC2Statement := by
  intro h
  obtain ⟨entries, he⟩ := h
    [Json.obj [("url", Json.str "u"), ("content", Json.str "c"),
      ("score", Json.num 1)]]
    (by intro r hr; rw [List.mem_singleton] at hr; subst hr; rfl)
  have he' : (Except.error (PyErr.keyError "title") :
      Except PyErr (List TavilyEntry)) = .ok entries := he
  exact Except.noConfusion he'

/-- C2 amended: the Brave and SearxNG normalizers default absent
optional fields (title, url, description/content) to the empty string
and do not raise on dict records; the Tavily cleaner instead indexes
title, url, content and score directly and raises KeyError on the
first absent one (only raw_content is optional there). -/
theorem C2_amended (fs : List (String × Json))
    (h : (Json.obj fs).hasKey "title" = false) :
    braveEntry (Json.obj fs) =
      .ok (Json.obj [("title", Json.str ""),
        ("link", (Json.obj fs).getD "url" (Json.str "")),
        ("snippet", (Json.obj fs).getD "description" (Json.str ""))]) ∧
    searxngEntry (Json.obj fs) =
      .ok (Json.obj [("title", Json.str ""),
        ("link", (Json.obj fs).getD "url" (Json.str "")),
        ("snippet", (Json.obj fs).getD "content" (Json.str ""))]) ∧
    cleanPageResult (Json.obj fs) = .error (PyErr.keyError "title") := by
  refine ⟨?_, ?_, ?_⟩
  · simp only [braveEntry, braveEntryObj, getD_of_hasKey_false _ h]
  · simp only [searxngEntry, searxngEntryObj, getD_of_hasKey_false _ h]
  · unfold cleanPageResult
    rw [getKey_of_hasKey_false h]
    rfl

/-- C2 witness: a record with only a url field. -/
theorem C2_amended_witness :
    braveEntry (Json.obj [("url", Json.str "u")]) =
      .ok (Json.obj [("title", Json.str ""),
        ("link", (Json.obj [("url", Json.str "u")]).getD "url" (Json.str "")),
        ("snippet", (Json.obj [("url", Json.str "u")]).getD "description"
          (Json.str ""))]) ∧
    searxngEntry (Json.obj [("url", Json.str "u")]) =
      .ok (Json.obj [("title", Json.str ""),
        ("link", (Json.obj [("url", Json.str "u")]).getD "url" (Json.str "")),
        ("snippet", (Json.obj [("url", Json.str "u")]).getD "content"
          (Json.str ""))]) ∧
    cleanPageResult (Json.obj [("url", Json.str "u")]) =
      .error (PyErr.keyError "title") :=
  C2_amended [("url", Json.str "u")] rfl

/-! ## Claim C8 -/

/-- C8 as frozen: on a well-formed non-empty Brave response, the
normalizer yields a non-empty sequence of records carrying fields
named title, url and snippet. -/
def claimC8Statement : Prop :=
  ∀ recs : List Json, recs ≠ [] →
    ∃ out, braveProcessResults recs = .ok out ∧ out ≠ [] ∧
      ∀ e ∈ out, e.hasKey "title" = true ∧ e.hasKey "url" = true ∧
        e.hasKey "snippet" = true

/-- C8 counterexample: the Brave normalizer emits the url under the
key "link", not "url". -/
theorem C8_counterexample : ¬ claimC8Statement := by
  intro h
  obtain ⟨out, hok, hne, hall⟩ := h
    [Json.obj [("title", Json.str "t"), ("url", Json.str "h"),
      ("description", Json.str "d")]]
    (by simp)
  have hok' : (Except.ok [Json.obj [("title", Json.str "t"),
      ("link", Json.str "h"), ("snippet", Json.str "d")]] :
      Except PyErr (List Json)) = .ok out := hok
  injection hok' with h1
  have hmem : (Json.obj [("title", Json.str "t"), ("link", Json.str "h"),
      ("snippet", Json.str "d")]) ∈ out := by
    rw [← h1]
    exact List.mem_singleton_self _
  have hurl := (hall _ hmem).2.1
  exact absurd hurl (by decide)

/-- C8 amended: on a response whose records are dicts, the Brave and
SearxNG normalizers succeed and return one output record per input
record in the provider order, each output record carrying exactly the
fields title, link and snippet (the url lives under "link", not
"url"). -/
theorem C8_amended (recs : List Json) (r : Json)
    (h : ∀ x ∈ recs, x.isObj = true) :
    braveProcessResults recs = .ok (recs.map braveEntryObj) ∧
    searxngExtract (Json.obj [("results", Json.arr recs)]) =
      .ok (recs.map searxngEntryObj, false) ∧
    (braveEntryObj r).keys = ["title", "link", "snippet"] ∧
    (searxngEntryObj r).keys = ["title", "link", "snippet"] := by
  have hbrave : braveProcessResults recs = .ok (recs.map braveEntryObj) := by
    apply exceptMapM_ok_of_forall
    intro a ha
    have hobj := h a ha
    cases a <;> first | rfl | simp [Json.isObj] at hobj
  refine ⟨hbrave, ?_, rfl, rfl⟩
  unfold searxngExtract
  have hc : (Json.obj [("results", Json.arr recs)]).pyContains "results" =
      .ok true := rfl
  rw [hc]
  simp only [except_bind_ok]
  rw [if_pos trivial]
  have hk : (Json.obj [("results", Json.arr recs)]).getKey "results" =
      .ok (Json.arr recs) := rfl
  rw [hk]
  simp only [except_bind_ok, Json.iterElems]
  have hmap : exceptMapM searxngEntry recs = .ok (recs.map searxngEntryObj) := by
    apply exceptMapM_ok_of_forall
    intro a ha
    have hobj := h a ha
    cases a <;> first | rfl | simp [Json.isObj] at hobj
  rw [hmap]
  rfl

/-- C8 witness: a single-record response. -/
theorem C8_amended_witness :
    braveProcessResults [Json.obj [("title", Json.str "t")]] =
      .ok ([Json.obj [("title", Json.str "t")]].map braveEntryObj) ∧
    searxngExtract (Json.obj [("results",
        Json.arr [Json.obj [("title", Json.str "t")]])]) =
      .ok ([Json.obj [("title", Json.str "t")]].map searxngEntryObj, false) ∧
    (braveEntryObj Json.null).keys = ["title", "link", "snippet"] ∧
    (searxngEntryObj Json.null).keys = ["title", "link", "snippet"] :=
  C8_amended [Json.obj [("title", Json.str "t")]] Json.null
    (by intro x hx; rw [List.mem_singleton] at hx; subst hx; rfl)

/-! ## Claim C10 -/

/-- C10: SearxNGSearchTool._run is total and always returns a JSON
string: a ValueError — from argument extraction, or in fact from any
stage of the try block — becomes the "Argument extraction failed"
error object, any other exception becomes the "An unexpected error
occurred" error object, and a successful search returns json.dumps of
the selected result list (always a JSON array). -/
theorem C10_searxng_tool_run_total (m q : String) (kw : List (String × Json))
    (raw : Json) (api : String → List (String × Json) → Except PyErr Json)
    (e : PyErr) (he : e.isValueErr = false) :
    searxngToolRun (.error (.valueError m)) api
      = Json.render (searxngErrObj ("Argument extraction failed: " ++ m)) ∧
    searxngToolRun (.error e) api
      = Json.render (searxngErrObj ("An unexpected error occurred: "
          ++ e.pyStr)) ∧
    searxngToolRun (.ok (q, kw)) (fun _ _ => .error (.valueError m))
      = Json.render (searxngErrObj ("Argument extraction failed: " ++ m)) ∧
    searxngToolRun (.ok (q, kw)) (fun _ _ => .ok raw)
      = Json.render (searxngSerializable raw) ∧
    (searxngSerializable raw).isArr = true := by
  refine ⟨rfl, ?_, rfl, rfl, searxngSerializable_isArr raw⟩
  cases e with
  | valueError m' => simp [PyErr.isValueErr] at he
  | keyError k => rfl
  | typeError => rfl
  | attributeError => rfl
  | runtimeError m' => rfl

/-- C10 witness: concrete extraction failure, API failure and success
scenarios. -/
theorem C10_searxng_tool_run_total_witness :
    searxngToolRun (.error (.valueError "x")) (fun _ _ => .ok Json.null)
      = Json.render (searxngErrObj ("Argument extraction failed: " ++ "x")) ∧
    searxngToolRun (.error PyErr.typeError) (fun _ _ => .ok Json.null)
      = Json.render (searxngErrObj ("An unexpected error occurred: "
          ++ PyErr.typeError.pyStr)) ∧
    searxngToolRun (.ok ("q", [])) (fun _ _ => .error (.valueError "x"))
      = Json.render (searxngErrObj ("Argument extraction failed: " ++ "x")) ∧
    searxngToolRun (.ok ("q", [])) (fun _ _ => .ok (Json.arr []))
      = Json.render (searxngSerializable (Json.arr [])) ∧
    (searxngSerializable (Json.arr [])).isArr = true :=
  C10_searxng_tool_run_total "x" "q" [] (Json.arr [])
    (fun _ _ => .ok Json.null) PyErr.typeError rfl
